import Mathlib

/-!
Shallow embedding of `msc_pygeoapi/process/weather/get_spectra_geoparquet.py`.

The module consists of a path resolver and a retrieval-and-transform
operation (`get_spectra_geoparquet`), plus a host adapter
(`GetSpectraGeoparquetProcessor.execute`).  The pandas data frame is
modelled as a column-major table; the `pd.read_parquet` call is modelled
as an injected reader function so that the arguments passed to it are
observable; Python exceptions are modelled as explicit error values.
-/

set_option autoImplicit false

namespace GetSpectra

/-- A cell value of the loaded table.  Floating point numbers are carried
by their IEEE-754 double bit pattern (decoding bytes to a bit pattern is
exact, and bit patterns are in bijection with doubles), binary cells by
their byte sequence.  `pydict` models the small Python dicts produced by
the geometry transform, whose values are all floats. -/
inductive Value where
  | str (s : String)
  | int (n : Int)
  | float (bits : Nat)
  | bytes (b : List Nat)
  | pydict (fields : List (String × Nat))
deriving DecidableEq, Repr

/-- A decoded well-known-binary point; `x` and `y` are the IEEE-754 bit
patterns of the two coordinate doubles. -/
structure WkbPoint where
  x : Nat
  y : Nat
deriving DecidableEq, Repr

/-- Read a list of bytes as a little-endian natural number. -/
def leWord (bs : List Nat) : Nat :=
  bs.foldr (fun b acc => b + 256 * acc) 0

/-- Read a list of bytes as a big-endian natural number. -/
def beWord (bs : List Nat) : Nat :=
  bs.foldl (fun acc b => 256 * acc + b) 0

/-- Semantics of the library call `shapely.from_wkb` restricted to what the
source consumes: a 21-byte WKB 2-D point (one endianness byte, a 4-byte
geometry-type word which must be 1, and two 8-byte coordinate doubles).
Any other input makes the library raise, modelled as `none`. -/
def from_wkb (b : List Nat) : Option WkbPoint :=
  match b with
  | [] => none
  | order :: rest =>
    if order ≤ 1 ∧ rest.length = 20 then
      let rd := fun chunk => if order = 1 then leWord chunk else beWord chunk
      if rd (rest.take 4) = 1 then
        some ⟨ rd ((rest.drop 4).take 8), rd ((rest.drop 12).take 8) ⟩
      else none
    else none

/-- A scalar appearing in a filter clause (the JSON schema allows strings
and numbers). -/
inductive FValue where
  | str (s : String)
  | num (n : Int)
deriving DecidableEq, Repr

/-- A filter clause; the payload carries Python lists, the reader receives
Python tuples, so the two container shapes are distinguished. -/
inductive Clause where
  | pylist (elems : List FValue)
  | pytuple (elems : List FValue)
deriving DecidableEq, Repr

/-- Python `tuple(x)`: the identity on tuples, list-to-tuple on lists. -/
def tupleOf : Clause → Clause
  | .pylist xs => .pytuple xs
  | .pytuple xs => .pytuple xs

/-- The failure kinds the table-reader capability can signal
(`pd.read_parquet`): resource absent, structurally empty result, or any
other exception.  Each carries its message text. -/
inductive ReadErr where
  | fileNotFound (msg : String)
  | emptyData (msg : String)
  | other (msg : String)
deriving DecidableEq, Repr

/-- Python exceptions observable from this module, each carrying its
message. -/
inductive PyErr where
  | valueError (msg : String)
  | fileNotFound (msg : String)
  | emptyDataError (msg : String)
  | exception (msg : String)
  | geosError (msg : String)
  | attributeError (msg : String)
  | processorExecuteError (msg : String)
deriving DecidableEq, Repr

/-- Whether the exception is an instance of Python's `ValueError`.
`pandas.errors.EmptyDataError` is declared as a subclass of `ValueError`,
so it is one; `FileNotFoundError` (an `OSError`), plain `Exception` and
shapely's errors are not. -/
def PyErr.isValueError : PyErr → Bool
  | .valueError _ => true
  | .emptyDataError _ => true
  | _ => false

/-- The `str(e)` message text of an exception. -/
def PyErr.message : PyErr → String
  | .valueError m => m
  | .fileNotFound m => m
  | .emptyDataError m => m
  | .exception m => m
  | .geosError m => m
  | .attributeError m => m
  | .processorExecuteError m => m

/-- A pandas data frame, column-major: a list of (column name, cells in
row order).  The row index is contiguous and 0-based in every state this
module puts a frame in (fresh parquet read, `ignore_index` dedup,
`reset_index`), so it is kept implicit as list position. -/
structure Table where
  cols : List (String × List Value)
deriving DecidableEq, Repr

/-- The column names, in order (`df.columns`). -/
def Table.names (t : Table) : List String :=
  t.cols.map Prod.fst

/-- The number of rows (`len(df)`). -/
def Table.nrows (t : Table) : Nat :=
  match t.cols with
  | [] => 0
  | c :: _ => c.2.length

/-- Well-formedness of a loaded frame: all columns have the row count many
cells, and column names are distinct (frames read from parquet have unique
column labels). -/
def Table.WF (t : Table) : Prop :=
  (∀ c ∈ t.cols, c.2.length = t.nrows) ∧ t.names.Nodup

/-- Column extraction `df[name]`: the cells of the (unique) column with
that label, `[]` if absent. -/
def Table.getCol (t : Table) (name : String) : List Value :=
  ((t.cols.find? (fun c => c.1 = name)).map Prod.snd).getD []

/-- Column assignment `df[name] = cells`: replaces the column in place
when the label exists, otherwise appends it after the existing columns. -/
def Table.setCol (t : Table) (name : String) (cells : List Value) : Table :=
  if t.names.contains name then
    ⟨ t.cols.map (fun c => if c.1 = name then (c.1, cells) else c) ⟩
  else ⟨ t.cols ++ [(name, cells)] ⟩

/-- Row `i` of the frame, as the list of its cells across columns. -/
def Table.row (t : Table) (i : Nat) : List Value :=
  t.cols.map (fun c => c.2.getD i (.str ""))

/-- All rows of the frame in order. -/
def Table.rowsList (t : Table) : List (List Value) :=
  (List.range t.nrows).map t.row

/-- The row positions that survive `drop_duplicates` with `keep="first"`:
those that differ from every earlier row. -/
def keptIndices (rows : List (List Value)) : List Nat :=
  (List.range rows.length).filter
    (fun i => decide (∀ k, k < i → rows.getD k [] ≠ rows.getD i []))

/-- `df.drop_duplicates(ignore_index=True)`: keep the first occurrence of
each full row, reindex contiguously from zero, column labels unchanged. -/
def Table.drop_duplicates (t : Table) : Table :=
  let keep := keptIndices t.rowsList
  ⟨ t.cols.map (fun c => (c.1, keep.map (fun i => c.2.getD i (.str "")))) ⟩

/-- The output mapping: column name to (row position to cell value); the
inner mapping over the contiguous 0-based index is represented by the
list of cells in row order. -/
abbrev Output := List (String × List Value)

/-- `df.to_dict()`: transpose the frame into a column-major nested
mapping.  On the column-major representation this is the column list
itself. -/
def Table.to_dict (t : Table) : Output :=
  t.cols

/-- The composition of the two maps at lines 165-166 of the source:
decode a WKB cell and wrap its coordinates as the record
`{"y": p.y, "x": p.x}` (key order as written in the source; the record is
a mapping, so order carries no meaning).  `none` models the uncaught
library exception on an undecodable cell. -/
def decodePointRecord (v : Value) : Option Value :=
  match v with
  | .bytes b => (from_wkb b).map (fun p => .pydict [("y", p.y), ("x", p.x)])
  | _ => none

/-- Lines 169-170 of the source: `df.reset_index(inplace=True)` followed
by `df.drop(columns=["index"])`.  The index here is the unnamed
contiguous RangeIndex, and pandas materializes it as a new front column
whose name is "index" — unless a column named "index" already exists, in
which case the fallback name "level_0" is used, and a further clash with
an existing "level_0" column raises `ValueError`.  The subsequent drop
removes every column labelled "index": the just-inserted one in the
no-clash case (net identity), or the pre-existing data column in the
fallback case. -/
def resetIndexDrop (t : Table) : Except PyErr Table :=
  if "index" ∈ t.names then
    if "level_0" ∈ t.names then
      .error (.valueError "cannot insert level_0, already exists")
    else
      .ok ⟨ ("level_0", (List.range t.nrows).map (fun i => Value.int i)) ::
        t.cols.filter (fun c => c.1 ≠ "index") ⟩
  else .ok t

/-- Lines 162-170 of the source: if a column literally named "geometry"
exists, extract it, drop it from the frame, decode every cell to a point
record, assign the result to column "point", then reset the index and
drop the materialized "index" column (`resetIndexDrop`). -/
def transformGeometry (t : Table) : Except PyErr Table :=
  if "geometry" ∈ t.names then
    let geom := t.getCol "geometry"
    let dropped : Table := ⟨ t.cols.filter (fun c => c.1 ≠ "geometry") ⟩
    match geom.mapM decodePointRecord with
    | none => .error (.geosError "Unable to decode WKB")
    | some pts => resetIndexDrop (dropped.setCol "point" pts)
  else .ok t

/-- The table-reader capability (`pd.read_parquet` with the pyarrow
engine): takes the path, the optional column projection and the optional
filter list, and returns a frame or one of the three failure kinds. -/
abbrev Reader := String → Option (List String) → Option (List Clause) → Except ReadErr Table

/-- Python str.lower(): lowercase every character (the model identifiers
are ASCII, where this agrees with Python).  Defined structurally over the
character list so that it evaluates. -/
def pyLower (s : String) : String :=
  ⟨ s.data.map Char.toLower ⟩

/-- Python str.upper(), as for `pyLower`. -/
def pyUpper (s : String) : String :=
  ⟨ s.data.map Char.toUpper ⟩

/-- Line 124 of the source. -/
def MAIN_URL : String := "https://goc-dx.science.gc.ca/~swav000/geoparquet"

/-- How a Python f-string renders the `region` argument: the string
itself, or the literal text "None" when the argument is `None`. -/
def regionStr : Option String → String
  | some r => r
  | none => "None"

/-- Lines 143-148 of the source: build the remote path from the model
family naming conventions, or raise `ValueError` for an unknown model. -/
def resolvePath (model varName date : String) (region : Option String) :
    Except PyErr String :=
  if pyLower model ∈ [ "gewps", "gdwps" ] then
    .ok (MAIN_URL ++ "/" ++ pyLower model ++ "/" ++ date ++ "_MSC_" ++
      pyUpper model ++ "_" ++ pyUpper varName ++ ".geoparquet")
  else if pyLower model ∈ [ "rdwps", "rewps" ] then
    .ok (MAIN_URL ++ "/" ++ pyLower model ++ "/" ++ date ++ "_MSC_" ++
      pyUpper model ++ "-" ++ regionStr region ++ "_" ++ pyUpper varName ++ ".geoparquet")
  else
    .error (.valueError ("Invalid model " ++ model))

/-- Lines 159-160 of the source: drop duplicates when the optional flag
is truthy (`remove_duplicates.getD false` is Python truthiness of the
optional parameter). -/
def applyDedup (remove_duplicates : Option Bool) (df : Table) : Table :=
  if remove_duplicates.getD false then df.drop_duplicates else df

/-- Lines 150-175 of the source: wrap the reader's failures (re-raised
with a labelling text before the original message), then dedup, transform
geometry and convert to the output mapping. -/
def afterLoad (res : Except ReadErr Table) (remove_duplicates : Option Bool) :
    Except PyErr Output :=
  match res with
  | .error (.fileNotFound m) => .error (.fileNotFound ("File not found: " ++ m))
  | .error (.emptyData m) => .error (.emptyDataError ("Empty data: " ++ m))
  | .error (.other m) => .error (.exception ("An unexpected error occurred: " ++ m))
  | .ok df =>
    (transformGeometry (applyDedup remove_duplicates df)).map Table.to_dict

/-- Lines 126-175 of the source, `get_spectra_geoparquet`.  The Python
parameter `variable` is named `varName` here because `variable` is a Lean
keyword.  `remove_duplicates.getD false` is Python truthiness of the
optional flag. -/
def get_spectra_geoparquet (reader : Reader) (model varName date : String)
    (region : Option String) (columns : Option String)
    (filters : Option (List Clause)) (remove_duplicates : Option Bool) :
    Except PyErr Output :=
  let columns := columns.map (fun s => s.splitOn ";")
  let filters := filters.map (fun fs => fs.map tupleOf)
  match resolvePath model varName date region with
  | .error e => .error e
  | .ok path => afterLoad (reader path columns filters) remove_duplicates

/-- The request payload as read by the host adapter: each recognized key,
`none` when absent.  The Python key "variable" is the field `varName`. -/
structure Payload where
  model : Option String
  varName : Option String
  date : Option String
  region : Option String
  columns : Option String
  filters : Option (List Clause)
  remove_duplicates : Option Bool
deriving Repr

/-- The observable outcome of `execute`: the messages logged at error
severity, and either the `(mimetype, output)` pair or the escaping
exception. -/
structure ExecResult where
  logs : List String
  result : Except PyErr (String × Output)
deriving Repr

namespace GetSpectraGeoparquetProcessor

/-- Lines 194-232 of the source, `GetSpectraGeoparquetProcessor.execute`.
When "model" is absent, `data.get("model")` yields `None` and
`model.lower()` raises `AttributeError`.  The required-parameter check is
`all(param in data for param in required)`; "model" is present in that
branch, so only the remaining required keys decide it.  The `getD ""`
extractions of variable and date are guarded by that check. -/
def execute (reader : Reader) (data : Payload) : ExecResult :=
  match data.model with
  | none =>
    ⟨ [], .error (.attributeError "NoneType object has no attribute lower") ⟩
  | some model =>
    let requiredPresent : Option Bool :=
      if pyLower model ∈ [ "gdwps", "gewps" ] then
        some (data.model.isSome && data.varName.isSome && data.date.isSome)
      else if pyLower model ∈ [ "rdwps", "rewps" ] then
        some (data.model.isSome && data.varName.isSome && data.date.isSome &&
          data.region.isSome)
      else none
    match requiredPresent with
    | none =>
      ⟨ [], .error (.valueError ("Invalid model " ++ model)) ⟩
    | some false =>
      ⟨ [ "Missing required parameters." ],
        .error (.processorExecuteError "Missing required parameters.") ⟩
    | some true =>
      match get_spectra_geoparquet reader model (data.varName.getD "")
          (data.date.getD "") data.region data.columns data.filters
          data.remove_duplicates with
      | .ok output => ⟨ [], .ok ( "application/json", output) ⟩
      | .error e =>
        if e.isValueError then
          ⟨ [ "Process execution error: " ++ e.message ],
            .error (.processorExecuteError
              ( "Process execution error: " ++ e.message)) ⟩
        else ⟨ [], .error e ⟩

end GetSpectraGeoparquetProcessor

/-- A concrete valid WKB point: little-endian byte order, geometry type
1, coordinates with all-zero bit patterns. -/
def wkbZeroPoint : List Nat :=
  [ 1, 1, 0, 0, 0,
    0, 0, 0, 0, 0, 0, 0, 0,
    0, 0, 0, 0, 0, 0, 0, 0 ]

/-- A one-row table with a geometry column and one data column. -/
def sampleGeomTable : Table :=
  ⟨ [ ("geometry", [ Value.bytes wkbZeroPoint ]), ("station", [ Value.str "A" ]) ] ⟩

/-- A one-row table that has both a "geometry" column and a pre-existing
"point" column. -/
def samplePointClashTable : Table :=
  ⟨ [ ("point", [ Value.str "a" ]), ("geometry", [ Value.bytes wkbZeroPoint ]) ] ⟩

/-- A one-row table that has both a "geometry" column and a pre-existing
"index" column. -/
def sampleIndexClashTable : Table :=
  ⟨ [ ("geometry", [ Value.bytes wkbZeroPoint ]), ("index", [ Value.str "a" ]) ] ⟩

/-! ## Helper lemmas -/

/-- A lowercase family-B model identifier is not in family A. -/
theorem famB_not_famA {s : String} (h : s ∈ [ "rdwps", "rewps" ]) :
    s ∉ ([ "gewps", "gdwps" ] : List String) := by
  simp only [List.mem_cons, List.not_mem_nil, or_false] at h
  rcases h with h | h <;> rw [h] <;> decide

/-- As `famB_not_famA`, for the tuple order the host adapter writes. -/
theorem famB_not_famA2 {s : String} (h : s ∈ [ "rdwps", "rewps" ]) :
    s ∉ ([ "gdwps", "gewps" ] : List String) := by
  simp only [List.mem_cons, List.not_mem_nil, or_false] at h
  rcases h with h | h <;> rw [h] <;> decide

/-- A recognized model resolves to some path. -/
theorem resolvePath_ok_of_fam (model varName date : String) (region : Option String)
    (hm : pyLower model ∈ [ "gewps", "gdwps" ] ∨
      pyLower model ∈ [ "rdwps", "rewps" ]) :
    ∃ p, resolvePath model varName date region = .ok p := by
  rcases hm with h | h
  · exact ⟨ _, by unfold resolvePath; rw [if_pos h] ⟩
  · exact ⟨ _, by unfold resolvePath; rw [if_neg (famB_not_famA h), if_pos h] ⟩

/-- Deduplication does not change the column labels. -/
theorem names_drop_duplicates (t : Table) :
    t.drop_duplicates.names = t.names := by
  simp [Table.drop_duplicates, Table.names, List.map_map, Function.comp]

/-- Deduplication does not increase the row count. -/
theorem nrows_drop_duplicates_le (t : Table) :
    t.drop_duplicates.nrows ≤ t.nrows := by
  rcases t with ⟨ cols ⟩
  cases cols with
  | nil => simp [Table.drop_duplicates, Table.nrows]
  | cons c rest =>
    simp only [Table.drop_duplicates, Table.nrows, List.map_cons, List.length_map]
    calc (keptIndices (Table.rowsList ⟨ c :: rest ⟩)).length
        ≤ (List.range (Table.rowsList ⟨ c :: rest ⟩).length).length :=
          List.length_filter_le _ _
      _ = c.2.length := by simp [Table.rowsList, Table.nrows]

/-- Deduplication preserves well-formedness. -/
theorem WF_drop_duplicates (t : Table) (h : t.WF) : t.drop_duplicates.WF := by
  obtain ⟨ hlen, hnd ⟩ := h
  constructor
  · intro c hc
    simp only [Table.drop_duplicates, List.mem_map] at hc
    obtain ⟨ c0, hc0, rfl ⟩ := hc
    rcases t with ⟨ cols ⟩
    cases cols with
    | nil => simp at hc0
    | cons d rest => simp [Table.nrows, Table.drop_duplicates]
  · rw [show t.drop_duplicates.names = t.names from names_drop_duplicates t]
    exact hnd

/-- `applyDedup`: labels unchanged. -/
theorem names_applyDedup (rd : Option Bool) (t : Table) :
    (applyDedup rd t).names = t.names := by
  unfold applyDedup
  by_cases hb : rd.getD false
  · rw [if_pos hb]; exact names_drop_duplicates t
  · rw [if_neg hb]

/-- `applyDedup`: well-formedness preserved. -/
theorem WF_applyDedup (rd : Option Bool) (t : Table) (h : t.WF) :
    (applyDedup rd t).WF := by
  unfold applyDedup
  by_cases hb : rd.getD false
  · rw [if_pos hb]; exact WF_drop_duplicates t h
  · rw [if_neg hb]; exact h

/-- `applyDedup`: row count not increased. -/
theorem nrows_applyDedup_le (rd : Option Bool) (t : Table) :
    (applyDedup rd t).nrows ≤ t.nrows := by
  unfold applyDedup
  by_cases hb : rd.getD false
  · rw [if_pos hb]; exact nrows_drop_duplicates_le t
  · rw [if_neg hb]

/-- `applyDedup` with a falsy flag is the identity. -/
theorem applyDedup_eq_of_falsy (rd : Option Bool) (t : Table)
    (h : rd.getD false = false) : applyDedup rd t = t := by
  unfold applyDedup
  rw [h]
  rfl

/-- In a well-formed table every column carrying an existing label has
the row count many cells. -/
theorem getCol_length (t : Table) (hWF : t.WF) (nm : String)
    (h : nm ∈ t.names) : (t.getCol nm).length = t.nrows := by
  have hex : ∃ c ∈ t.cols, (fun c : String × List Value => decide (c.1 = nm)) c := by
    simp only [Table.names, List.mem_map] at h
    obtain ⟨ c, hc, hnm ⟩ := h
    exact ⟨ c, hc, by simp [hnm] ⟩
  have hsome : (t.cols.find? (fun c => c.1 = nm)).isSome := by
    rw [List.find?_isSome]
    exact hex
  obtain ⟨ c, hc ⟩ := Option.isSome_iff_exists.mp hsome
  rw [Table.getCol, hc]
  exact hWF.1 c (List.mem_of_find?_eq_some hc)

/-- Each cell of a column of the deduplicated table is a cell of the same
column of the original table. -/
theorem getCol_drop_duplicates_subset (t : Table) (hWF : t.WF) (nm : String)
    (v : Value) (hv : v ∈ t.drop_duplicates.getCol nm) : v ∈ t.getCol nm := by
  rcases t with ⟨ cols ⟩
  simp only [Table.drop_duplicates, Table.getCol] at hv
  rw [List.find?_map] at hv
  set p := fun c : String × List Value => decide (c.1 = nm) with hp
  have hcomp : ((fun c : String × List Value => decide (c.1 = nm)) ∘
      (fun c : String × List Value =>
        (c.1, (keptIndices (Table.rowsList ⟨ cols ⟩)).map
          (fun i => c.2.getD i (.str ""))))) = p := by
    funext c
    simp [hp]
  rw [hcomp] at hv
  cases hfind : cols.find? p with
  | none =>
    rw [hfind] at hv
    simp at hv
  | some c =>
    rw [hfind] at hv
    simp only [Option.map_some, Option.map, Option.getD] at hv
    simp only [List.mem_map] at hv
    obtain ⟨ i, hi, rfl ⟩ := hv
    have hiRange : i < (Table.rowsList ⟨ cols ⟩).length := by
      unfold keptIndices at hi
      exact List.mem_range.mp (List.mem_filter.mp hi).1
    have hlenRows : (Table.rowsList ⟨ cols ⟩).length = Table.nrows ⟨ cols ⟩ := by
      simp [Table.rowsList]
    have hclen : c.2.length = Table.nrows ⟨ cols ⟩ :=
      hWF.1 c (List.mem_of_find?_eq_some hfind)
    have hie : i < c.2.length := by omega
    have hmem : c.2.getD i (.str "") ∈ c.2 := by
      rw [List.getD_eq_getElem c.2 (.str "") hie]
      exact List.getElem_mem hie
    simpa [Table.getCol, hfind] using hmem

/-- Each cell of a column of the optionally deduplicated table is a cell
of the same column of the loaded table. -/
theorem getCol_applyDedup_subset (rd : Option Bool) (t : Table) (hWF : t.WF)
    (nm : String) (v : Value) (hv : v ∈ (applyDedup rd t).getCol nm) :
    v ∈ t.getCol nm := by
  unfold applyDedup at hv
  by_cases hb : rd.getD false
  · rw [if_pos hb] at hv
    exact getCol_drop_duplicates_subset t hWF nm v hv
  · rw [if_neg hb] at hv
    exact hv

/-- A list whose elements all map to `some` maps under `mapM` to `some`
of a pointwise-related list. -/
theorem mapM_option_spec {α β : Type} (f : α → Option β) :
    ∀ l : List α, (∀ v ∈ l, (f v).isSome) →
      ∃ ps, l.mapM f = some ps ∧ List.Forall₂ (fun v w => f v = some w) l ps := by
  intro l
  induction l with
  | nil => exact fun _ => ⟨ [], rfl, List.Forall₂.nil ⟩
  | cons a as ih =>
    intro h
    obtain ⟨ b, hb ⟩ := Option.isSome_iff_exists.mp (h a (List.mem_cons_self a as))
    obtain ⟨ ps, hps, hfa ⟩ := ih (fun v hv => h v (List.mem_cons_of_mem a hv))
    refine ⟨ b :: ps, ?_, List.Forall₂.cons hb hfa ⟩
    rw [List.mapM_cons, hb, hps]
    rfl

/-- What a successful `decodePointRecord` tells about its input and
output: the cell was a byte string decoding to a point, and the result is
the corresponding coordinate record. -/
theorem decodePointRecord_spec (v : Value) (w : Value)
    (h : decodePointRecord v = some w) :
    ∃ b q, v = Value.bytes b ∧ from_wkb b = some q ∧
      w = Value.pydict [ ("y", q.y), ("x", q.x) ] := by
  cases v with
  | bytes b =>
    cases hq : from_wkb b with
    | none => rw [decodePointRecord, hq] at h; simp at h
    | some q =>
      rw [decodePointRecord, hq] at h
      refine ⟨ b, q, rfl, hq, ?_ ⟩
      have h2 : some (Value.pydict [ ("y", q.y), ("x", q.x) ]) = some w := h
      exact (Option.some_inj.mp h2).symm
  | str s => simp [decodePointRecord] at h
  | int n => simp [decodePointRecord] at h
  | float bits => simp [decodePointRecord] at h
  | pydict fields => simp [decodePointRecord] at h

/-! ## Claim theorems -/

/-- C2: for every family-A input the resolved path is
base/model_lower/date_MSC_MODELUPPER_VARIABLEUPPER.geoparquet, and for
every family-B input with a region it is
base/model_lower/date_MSC_MODELUPPER-REGION_VARIABLEUPPER.geoparquet,
with the fixed constant `MAIN_URL` as base. -/
theorem c2_resolved_path_naming (model varName date : String)
    (region : Option String) (r : String) :
    (pyLower model ∈ [ "gewps", "gdwps" ] →
      resolvePath model varName date region =
        .ok (MAIN_URL ++ "/" ++ pyLower model ++ "/" ++ date ++ "_MSC_" ++
          pyUpper model ++ "_" ++ pyUpper varName ++ ".geoparquet"))
    ∧ (pyLower model ∈ [ "rdwps", "rewps" ] →
      resolvePath model varName date (some r) =
        .ok (MAIN_URL ++ "/" ++ pyLower model ++ "/" ++ date ++ "_MSC_" ++
          pyUpper model ++ "-" ++ r ++ "_" ++ pyUpper varName ++ ".geoparquet")) := by
  constructor
  · intro h
    unfold resolvePath
    rw [if_pos h]
  · intro h
    unfold resolvePath
    rw [if_neg (famB_not_famA h), if_pos h]
    rfl

/-- Witness for C2 at the worked example of the spec and at a concrete
family-B input. -/
theorem c2_resolved_path_naming_witness :
    resolvePath "GEWPS" "EFTH" "2025031500" none =
      .ok (MAIN_URL ++ "/" ++ pyLower "GEWPS" ++ "/" ++ "2025031500" ++ "_MSC_" ++
        pyUpper "GEWPS" ++ "_" ++ pyUpper "EFTH" ++ ".geoparquet")
    ∧ resolvePath "RDWPS" "F" "2025010100" (some "erie") =
      .ok (MAIN_URL ++ "/" ++ pyLower "RDWPS" ++ "/" ++ "2025010100" ++ "_MSC_" ++
        pyUpper "RDWPS" ++ "-" ++ "erie" ++ "_" ++ pyUpper "F" ++ ".geoparquet") :=
  ⟨ (c2_resolved_path_naming "GEWPS" "EFTH" "2025031500" none "erie").1 (by decide),
    (c2_resolved_path_naming "RDWPS" "F" "2025010100" none "erie").2 (by decide) ⟩

/-- C3: a model in neither family makes the operation fail with the
invalid-model `ValueError`; the path resolver itself fails (no path
string is produced) and the result is the same for every reader (no I/O
is attempted). -/
theorem c3_invalid_model_rejected (model varName date : String)
    (region columns : Option String) (filters : Option (List Clause))
    (rd : Option Bool)
    (h1 : pyLower model ∉ ([ "gewps", "gdwps" ] : List String))
    (h2 : pyLower model ∉ ([ "rdwps", "rewps" ] : List String)) :
    resolvePath model varName date region =
      .error (.valueError ( "Invalid model " ++ model))
    ∧ ∀ reader : Reader,
      get_spectra_geoparquet reader model varName date region columns filters rd =
        .error (.valueError ( "Invalid model " ++ model)) := by
  have hr : resolvePath model varName date region =
      .error (.valueError ( "Invalid model " ++ model)) := by
    unfold resolvePath
    rw [if_neg h1, if_neg h2]
  exact ⟨ hr, fun reader => by simp only [get_spectra_geoparquet, hr] ⟩

/-- Witness for C3 at the concrete invalid model "FOO", with a reader
that would succeed if it were ever consulted. -/
theorem c3_invalid_model_rejected_witness :
    resolvePath "FOO" "EFTH" "2025031500" none =
      .error (.valueError ( "Invalid model " ++ "FOO"))
    ∧ get_spectra_geoparquet (fun _ _ _ => .ok ⟨ [] ⟩) "FOO" "EFTH" "2025031500"
        none none none none =
      .error (.valueError ( "Invalid model " ++ "FOO")) :=
  ⟨ (c3_invalid_model_rejected "FOO" "EFTH" "2025031500" none none none none
      (by decide) (by decide)).1,
    (c3_invalid_model_rejected "FOO" "EFTH" "2025031500" none none none none
      (by decide) (by decide)).2 (fun _ _ _ => .ok ⟨ [] ⟩) ⟩

/-- C4: each of the three load-failure kinds is re-raised, not
suppressed: resource-absent becomes the not-found error, an empty result
becomes the empty-data error, anything else the generic wrapped error,
and in all three cases the original message is contained in (here: a
suffix of) the new error's message. -/
theorem c4_load_failure_wrapping (model varName date : String)
    (region columns : Option String) (filters : Option (List Clause))
    (rd : Option Bool) (path m : String)
    (hp : resolvePath model varName date region = .ok path) :
    (get_spectra_geoparquet (fun _ _ _ => .error (.fileNotFound m)) model varName
        date region columns filters rd =
        .error (.fileNotFound ( "File not found: " ++ m))
      ∧ ∃ s, "File not found: " ++ m = s ++ m)
    ∧ (get_spectra_geoparquet (fun _ _ _ => .error (.emptyData m)) model varName
        date region columns filters rd =
        .error (.emptyDataError ( "Empty data: " ++ m))
      ∧ ∃ s, "Empty data: " ++ m = s ++ m)
    ∧ (get_spectra_geoparquet (fun _ _ _ => .error (.other m)) model varName
        date region columns filters rd =
        .error (.exception ( "An unexpected error occurred: " ++ m))
      ∧ ∃ s, "An unexpected error occurred: " ++ m = s ++ m) := by
  refine ⟨ ⟨ ?_, "File not found: ", rfl ⟩, ⟨ ?_, "Empty data: ", rfl ⟩,
    ⟨ ?_, "An unexpected error occurred: ", rfl ⟩ ⟩ <;>
    simp only [get_spectra_geoparquet, hp, afterLoad]

/-- Witness for C4 at a concrete family-A input and message. -/
theorem c4_load_failure_wrapping_witness :
    get_spectra_geoparquet (fun _ _ _ => .error (.fileNotFound "404")) "GEWPS"
        "EFTH" "2025031500" none none none none =
      .error (.fileNotFound ( "File not found: " ++ "404")) :=
  (c4_load_failure_wrapping "GEWPS" "EFTH" "2025031500" none none none none
    "https://goc-dx.science.gc.ca/~swav000/geoparquet/gewps/2025031500_MSC_GEWPS_EFTH.geoparquet"
    "404" rfl).1.1

/-- C9: a payload whose model is present but in neither family makes
`execute` fail with the plain invalid-model `ValueError` from its own
family check: nothing is logged, the error is not translated to the
host's `ProcessorExecuteError`, and no reader call happens (the result is
the same for every reader). -/
theorem c9_execute_invalid_model_plain_valueerror (data : Payload) (model : String)
    (hm : data.model = some model)
    (h1 : pyLower model ∉ ([ "gdwps", "gewps" ] : List String))
    (h2 : pyLower model ∉ ([ "rdwps", "rewps" ] : List String)) :
    ∀ reader : Reader,
      GetSpectraGeoparquetProcessor.execute reader data =
        ⟨ [], .error (.valueError ( "Invalid model " ++ model)) ⟩ := by
  intro reader
  simp only [GetSpectraGeoparquetProcessor.execute, hm, if_neg h1, if_neg h2]

/-- Witness for C9 at a concrete payload with model "FOO". -/
theorem c9_execute_invalid_model_plain_valueerror_witness :
    GetSpectraGeoparquetProcessor.execute (fun _ _ _ => .ok ⟨ [] ⟩)
        ⟨ some "FOO", some "EFTH", some "2025031500", none, none, none, none ⟩ =
      ⟨ [], .error (.valueError ( "Invalid model " ++ "FOO")) ⟩ :=
  c9_execute_invalid_model_plain_valueerror
    ⟨ some "FOO", some "EFTH", some "2025031500", none, none, none, none ⟩
    "FOO" rfl (by decide) (by decide) (fun _ _ _ => .ok ⟨ [] ⟩)

/-- C10: calling the operation directly with a family-B model and region
omitted does not fail at path resolution: the resolver fills the region
slot with the literal text "None", and for every reader the operation
proceeds to the load with that path (the core operation never enforces
the presence of a region). -/
theorem c10_region_none_literal (model varName date : String)
    (columns : Option String) (filters : Option (List Clause)) (rd : Option Bool)
    (hm : pyLower model ∈ [ "rdwps", "rewps" ]) :
    resolvePath model varName date none =
      .ok (MAIN_URL ++ "/" ++ pyLower model ++ "/" ++ date ++ "_MSC_" ++
        pyUpper model ++ "-" ++ "None" ++ "_" ++ pyUpper varName ++ ".geoparquet")
    ∧ ∀ reader : Reader,
      get_spectra_geoparquet reader model varName date none columns filters rd =
        afterLoad (reader
          (MAIN_URL ++ "/" ++ pyLower model ++ "/" ++ date ++ "_MSC_" ++
            pyUpper model ++ "-" ++ "None" ++ "_" ++ pyUpper varName ++ ".geoparquet")
          (columns.map (fun s => s.splitOn ";"))
          (filters.map (fun fs => fs.map tupleOf))) rd := by
  have hr : resolvePath model varName date none =
      .ok (MAIN_URL ++ "/" ++ pyLower model ++ "/" ++ date ++ "_MSC_" ++
        pyUpper model ++ "-" ++ "None" ++ "_" ++ pyUpper varName ++ ".geoparquet") := by
    unfold resolvePath
    rw [if_neg (famB_not_famA hm), if_pos hm]
    rfl
  exact ⟨ hr, fun reader => by simp only [get_spectra_geoparquet, hr] ⟩

/-- Witness for C10 at a concrete family-B input, with a reader failing
on every path so that the reached-the-load stage is visible in the
result. -/
theorem c10_region_none_literal_witness :
    resolvePath "REWPS" "F" "2025010100" none =
      .ok (MAIN_URL ++ "/" ++ pyLower "REWPS" ++ "/" ++ "2025010100" ++ "_MSC_" ++
        pyUpper "REWPS" ++ "-" ++ "None" ++ "_" ++ pyUpper "F" ++ ".geoparquet")
    ∧ get_spectra_geoparquet (fun _ _ _ => .error (.other "boom")) "REWPS" "F"
        "2025010100" none none none none =
      afterLoad (.error (.other "boom")) none :=
  ⟨ (c10_region_none_literal "REWPS" "F" "2025010100" none none none (by decide)).1,
    (c10_region_none_literal "REWPS" "F" "2025010100" none none none (by decide)).2
      (fun _ _ _ => .error (.other "boom")) ⟩

/-- C5: a payload that determines a model family (its "model" key is
present and recognized) but lacks one of that family's remaining required
parameters makes `execute` log and fail with the
"Missing required parameters." execution error, for every reader — the
retrieval operation is never consulted. -/
theorem c5_missing_required_parameters (data : Payload) (model : String)
    (hm : data.model = some model)
    (h : (pyLower model ∈ [ "gdwps", "gewps" ] ∧
            (data.varName = none ∨ data.date = none))
       ∨ (pyLower model ∈ [ "rdwps", "rewps" ] ∧
            (data.varName = none ∨ data.date = none ∨ data.region = none))) :
    ∀ reader : Reader,
      GetSpectraGeoparquetProcessor.execute reader data =
        ⟨ [ "Missing required parameters." ],
          .error (.processorExecuteError "Missing required parameters.") ⟩ := by
  intro reader
  rcases h with ⟨ hf, habs ⟩ | ⟨ hf, habs ⟩
  · have hf2 : pyLower model = "gdwps" ∨ pyLower model = "gewps" := by
      simpa using hf
    have hreq2 : (data.varName.isSome && data.date.isSome) = false := by
      rcases habs with h1 | h1 <;> simp [h1]
    simp [GetSpectraGeoparquetProcessor.execute, hm, if_pos hf2, hreq2]
  · have hnA : ¬(pyLower model = "gdwps" ∨ pyLower model = "gewps") := by
      simpa using famB_not_famA2 hf
    have hf2 : pyLower model = "rdwps" ∨ pyLower model = "rewps" := by
      simpa using hf
    have hreq2 : (data.varName.isSome && data.date.isSome &&
        data.region.isSome) = false := by
      rcases habs with h1 | h1 | h1 <;> simp [h1]
    simp [GetSpectraGeoparquetProcessor.execute, hm, if_neg hnA, if_pos hf2, hreq2]

/-- Witness for C5: a family-A payload missing "date". -/
theorem c5_missing_required_parameters_witness :
    GetSpectraGeoparquetProcessor.execute (fun _ _ _ => .ok ⟨ [] ⟩)
        ⟨ some "GEWPS", some "EFTH", none, none, none, none, none ⟩ =
      ⟨ [ "Missing required parameters." ],
        .error (.processorExecuteError "Missing required parameters.") ⟩ :=
  c5_missing_required_parameters
    ⟨ some "GEWPS", some "EFTH", none, none, none, none, none ⟩ "GEWPS" rfl
    (Or.inl ⟨ by decide, Or.inr rfl ⟩) (fun _ _ _ => .ok ⟨ [] ⟩)

/-- C6 (amended): when the retrieval operation raises a failure that is a
value-type error in Python's sense — which includes the empty-data error,
since pandas's EmptyDataError subclasses ValueError — `execute` logs and
re-fails with a process-execution error carrying the original message;
failures that are not value-type (not-found, generic load failure)
propagate out of `execute` unchanged, with nothing logged. -/
theorem c6_operation_failure_translation (data : Payload) (model : String)
    (reader : Reader) (e : PyErr) (hm : data.model = some model)
    (hreq : (pyLower model ∈ [ "gdwps", "gewps" ] ∧
              data.varName.isSome = true ∧ data.date.isSome = true)
          ∨ (pyLower model ∈ [ "rdwps", "rewps" ] ∧
              data.varName.isSome = true ∧ data.date.isSome = true ∧
              data.region.isSome = true))
    (hcall : get_spectra_geoparquet reader model (data.varName.getD "")
        (data.date.getD "") data.region data.columns data.filters
        data.remove_duplicates = .error e) :
    (e.isValueError = true →
      GetSpectraGeoparquetProcessor.execute reader data =
        ⟨ [ "Process execution error: " ++ e.message ],
          .error (.processorExecuteError
            ( "Process execution error: " ++ e.message)) ⟩)
    ∧ (e.isValueError = false →
      GetSpectraGeoparquetProcessor.execute reader data = ⟨ [], .error e ⟩) := by
  have hmain : GetSpectraGeoparquetProcessor.execute reader data =
      (if e.isValueError then
        ⟨ [ "Process execution error: " ++ e.message ],
          .error (.processorExecuteError
            ( "Process execution error: " ++ e.message)) ⟩
      else ⟨ [], .error e ⟩ : ExecResult) := by
    rcases hreq with ⟨ hf, hv, hd ⟩ | ⟨ hf, hv, hd, hr ⟩
    · have hf2 : pyLower model = "gdwps" ∨ pyLower model = "gewps" := by
        simpa using hf
      simp [GetSpectraGeoparquetProcessor.execute, hm, if_pos hf2, hv, hd, hcall]
    · have hnA : ¬(pyLower model = "gdwps" ∨ pyLower model = "gewps") := by
        simpa using famB_not_famA2 hf
      have hf2 : pyLower model = "rdwps" ∨ pyLower model = "rewps" := by
        simpa using hf
      simp [GetSpectraGeoparquetProcessor.execute, hm, if_neg hnA, if_pos hf2,
        hv, hd, hr, hcall]
  constructor
  · intro hb
    rw [hmain, if_pos hb]
  · intro hb
    rw [hmain, if_neg (by rw [hb]; exact Bool.false_ne_true)]

/-- Witness for C6: an empty-data load failure is a value-type error and
gets translated; a not-found failure is not and propagates unchanged. -/
theorem c6_operation_failure_translation_witness :
    GetSpectraGeoparquetProcessor.execute (fun _ _ _ => .error (.emptyData "x"))
        ⟨ some "GEWPS", some "EFTH", some "2025031500", none, none, none, none ⟩ =
      ⟨ [ "Process execution error: " ++
          (PyErr.emptyDataError ( "Empty data: " ++ "x")).message ],
        .error (.processorExecuteError ( "Process execution error: " ++
          (PyErr.emptyDataError ( "Empty data: " ++ "x")).message)) ⟩
    ∧ GetSpectraGeoparquetProcessor.execute (fun _ _ _ => .error (.fileNotFound "x"))
        ⟨ some "GEWPS", some "EFTH", some "2025031500", none, none, none, none ⟩ =
      ⟨ [], .error (.fileNotFound ( "File not found: " ++ "x")) ⟩ :=
  ⟨ (c6_operation_failure_translation
      ⟨ some "GEWPS", some "EFTH", some "2025031500", none, none, none, none ⟩
      "GEWPS" (fun _ _ _ => .error (.emptyData "x"))
      (.emptyDataError ( "Empty data: " ++ "x")) rfl
      (Or.inl ⟨ by decide, rfl, rfl ⟩) rfl).1 rfl,
    (c6_operation_failure_translation
      ⟨ some "GEWPS", some "EFTH", some "2025031500", none, none, none, none ⟩
      "GEWPS" (fun _ _ _ => .error (.fileNotFound "x"))
      (.fileNotFound ( "File not found: " ++ "x")) rfl
      (Or.inl ⟨ by decide, rfl, rfl ⟩) rfl).2 rfl ⟩

/-- C6 counterexample: the claim says the empty-data failure kind
propagates out of `execute` unchanged, but pandas's EmptyDataError is a
ValueError subclass, so `execute`'s value-type handler catches it and
re-raises a process-execution error instead (logging it): the result is
not the empty-data error. -/
theorem c6_counterexample :
    GetSpectraGeoparquetProcessor.execute (fun _ _ _ => .error (.emptyData "no rows"))
        ⟨ some "GEWPS", some "EFTH", some "2025031500", none, none, none, none ⟩ =
      ⟨ [ "Process execution error: Empty data: no rows" ],
        .error (.processorExecuteError "Process execution error: Empty data: no rows") ⟩
    ∧ PyErr.processorExecuteError "Process execution error: Empty data: no rows" ≠
        PyErr.emptyDataError "Empty data: no rows" := by
  exact ⟨ rfl, by decide ⟩

/-- C7: when the loaded table has no "geometry" column, the output is
exactly the (optionally deduplicated) loaded table: same columns with
the same values, labels unchanged, every column still of the (possibly
dedup-reduced) row count, and the identity when no dedup was
requested. -/
theorem c7_no_geometry_passthrough (t : Table) (model varName date : String)
    (region columns : Option String) (filters : Option (List Clause))
    (rd : Option Bool)
    (hm : pyLower model ∈ [ "gewps", "gdwps" ] ∨
      pyLower model ∈ [ "rdwps", "rewps" ])
    (hWF : t.WF) (hg : "geometry" ∉ t.names) :
    get_spectra_geoparquet (fun _ _ _ => .ok t) model varName date region
        columns filters rd = .ok (applyDedup rd t).cols
    ∧ (applyDedup rd t).names = t.names
    ∧ (∀ c ∈ (applyDedup rd t).cols, c.2.length = (applyDedup rd t).nrows)
    ∧ (rd.getD false = false → applyDedup rd t = t)
    ∧ (applyDedup rd t).nrows ≤ t.nrows := by
  obtain ⟨ p, hp ⟩ := resolvePath_ok_of_fam model varName date region hm
  have hg2 : "geometry" ∉ (applyDedup rd t).names := by
    rw [names_applyDedup]
    exact hg
  have htrans : transformGeometry (applyDedup rd t) = .ok (applyDedup rd t) := by
    unfold transformGeometry
    rw [if_neg hg2]
  refine ⟨ ?_, names_applyDedup rd t, (WF_applyDedup rd t hWF).1,
    applyDedup_eq_of_falsy rd t, nrows_applyDedup_le rd t ⟩
  simp only [get_spectra_geoparquet, hp, afterLoad, htrans, Except.map_ok]
  rfl

/-- Witness for C7 at a concrete two-column table without geometry. -/
theorem c7_no_geometry_passthrough_witness :
    get_spectra_geoparquet
        (fun _ _ _ => .ok ⟨ [ ("station", [ Value.str "A" ]),
          ("member", [ Value.int 0 ]) ] ⟩)
        "GEWPS" "EFTH" "2025031500" none none none none =
      .ok (applyDedup none
        ⟨ [ ("station", [ Value.str "A" ]), ("member", [ Value.int 0 ]) ] ⟩).cols :=
  (c7_no_geometry_passthrough
    ⟨ [ ("station", [ Value.str "A" ]), ("member", [ Value.int 0 ]) ] ⟩
    "GEWPS" "EFTH" "2025031500" none none none none (Or.inl (by decide))
    ⟨ by decide, by decide ⟩ (by decide)).1

/-- C8: a provided columns string is split on ";" into the ordered name
sequence handed to the reader; a provided filters list has each clause
converted from list to tuple form and is handed to the reader unchanged;
both reach the reader at load time (the remaining processing consumes
only the reader's result). -/
theorem c8_projection_filters_pushdown (model varName date : String)
    (region : Option String) (colStr : String) (fl : List (List FValue))
    (rd : Option Bool) (path : String)
    (hp : resolvePath model varName date region = .ok path) :
    (∀ g : Reader,
      get_spectra_geoparquet g model varName date region (some colStr)
          (some (fl.map Clause.pylist)) rd =
        afterLoad (g path (some (colStr.splitOn ";"))
          (some (fl.map Clause.pytuple))) rd)
    ∧ (fl.map Clause.pylist).map tupleOf = fl.map Clause.pytuple := by
  have hmap : (fl.map Clause.pylist).map tupleOf = fl.map Clause.pytuple := by
    rw [List.map_map]
    rfl
  refine ⟨ fun g => ?_, hmap ⟩
  have h2 : Option.map (fun fs => List.map tupleOf fs)
      (some (List.map Clause.pylist fl)) = some (List.map Clause.pytuple fl) := by
    rw [show Option.map (fun fs => List.map tupleOf fs)
        (some (List.map Clause.pylist fl)) =
      some (List.map tupleOf (List.map Clause.pylist fl)) from rfl, hmap]
  have h3 : Option.map (fun s => s.splitOn ";") (some colStr) =
      some (colStr.splitOn ";") := rfl
  simp only [get_spectra_geoparquet, hp, h2, h3]

/-- Witness for C8 at the worked example of the spec metadata: columns
"station_name;member" and the two example filter clauses. -/
theorem c8_projection_filters_pushdown_witness :
    get_spectra_geoparquet (fun _ _ _ => .error (.other "stop")) "GEWPS" "EFTH"
        "2025031500" none (some "station_name;member")
        (some ([ [ FValue.str "station_name", FValue.str "==", FValue.str "00N000E" ],
          [ FValue.str "member", FValue.str "==", FValue.num 0 ] ].map Clause.pylist))
        none =
      afterLoad ((fun _ _ _ => .error (.other "stop") : Reader)
        "https://goc-dx.science.gc.ca/~swav000/geoparquet/gewps/2025031500_MSC_GEWPS_EFTH.geoparquet"
        (some ( "station_name;member".splitOn ";"))
        (some ([ [ FValue.str "station_name", FValue.str "==", FValue.str "00N000E" ],
          [ FValue.str "member", FValue.str "==", FValue.num 0 ] ].map Clause.pytuple)))
        none
    ∧ ([ [ FValue.str "station_name", FValue.str "==", FValue.str "00N000E" ],
        [ FValue.str "member", FValue.str "==", FValue.num 0 ] ].map
          Clause.pylist).map tupleOf =
      [ [ FValue.str "station_name", FValue.str "==", FValue.str "00N000E" ],
        [ FValue.str "member", FValue.str "==", FValue.num 0 ] ].map Clause.pytuple :=
  ⟨ (c8_projection_filters_pushdown "GEWPS" "EFTH" "2025031500" none
      "station_name;member"
      [ [ FValue.str "station_name", FValue.str "==", FValue.str "00N000E" ],
        [ FValue.str "member", FValue.str "==", FValue.num 0 ] ] none
      "https://goc-dx.science.gc.ca/~swav000/geoparquet/gewps/2025031500_MSC_GEWPS_EFTH.geoparquet"
      rfl).1 (fun _ _ _ => .error (.other "stop")),
    (c8_projection_filters_pushdown "GEWPS" "EFTH" "2025031500" none
      "station_name;member"
      [ [ FValue.str "station_name", FValue.str "==", FValue.str "00N000E" ],
        [ FValue.str "member", FValue.str "==", FValue.num 0 ] ] none
      "https://goc-dx.science.gc.ca/~swav000/geoparquet/gewps/2025031500_MSC_GEWPS_EFTH.geoparquet"
      rfl).2 ⟩

/-- C1 (amended): for a loaded table with a "geometry" column of valid
WKB points and no pre-existing column named "point" or "index", the
output drops "geometry", appends a "point" column after the existing
(possibly deduplicated) columns whose entries are the records with keys
"y"/"x" carrying the decoded coordinates, keeps every other column's
values, and leaves the row count unchanged unless reduced by a requested
deduplication. -/
theorem c1_geometry_point_transform (t : Table) (model varName date : String)
    (region columns : Option String) (filters : Option (List Clause))
    (rd : Option Bool)
    (hm : pyLower model ∈ [ "gewps", "gdwps" ] ∨
      pyLower model ∈ [ "rdwps", "rewps" ])
    (hWF : t.WF) (hg : "geometry" ∈ t.names) (hpoint : "point" ∉ t.names)
    (hidx : "index" ∉ t.names)
    (hdec : ∀ v ∈ t.getCol "geometry",
      ∃ b q, v = Value.bytes b ∧ from_wkb b = some q) :
    ∃ pts,
      get_spectra_geoparquet (fun _ _ _ => .ok t) model varName date region
          columns filters rd =
        .ok ((applyDedup rd t).cols.filter (fun c => c.1 ≠ "geometry") ++
          [ ("point", pts) ])
      ∧ List.Forall₂ (fun v w => ∃ b q, v = Value.bytes b ∧
          from_wkb b = some q ∧ w = Value.pydict [ ("y", q.y), ("x", q.x) ])
          ((applyDedup rd t).getCol "geometry") pts
      ∧ pts.length = (applyDedup rd t).nrows
      ∧ (∀ c ∈ (applyDedup rd t).cols, c.2.length = (applyDedup rd t).nrows)
      ∧ (applyDedup rd t).names = t.names
      ∧ (rd.getD false = false → applyDedup rd t = t)
      ∧ (applyDedup rd t).nrows ≤ t.nrows
      ∧ "geometry" ∉ ((applyDedup rd t).cols.filter (fun c => c.1 ≠ "geometry") ++
          [ ("point", pts) ]).map Prod.fst := by
  obtain ⟨ p, hp ⟩ := resolvePath_ok_of_fam model varName date region hm
  have hWF2 := WF_applyDedup rd t hWF
  have hg2 : "geometry" ∈ (applyDedup rd t).names := by
    rw [names_applyDedup]
    exact hg
  have hdec2 : ∀ v ∈ (applyDedup rd t).getCol "geometry",
      (decodePointRecord v).isSome := by
    intro v hv
    obtain ⟨ b, q, rfl, hq ⟩ := hdec v (getCol_applyDedup_subset rd t hWF _ v hv)
    simp [decodePointRecord, hq]
  obtain ⟨ pts, hmapm, hfa ⟩ :=
    mapM_option_spec decodePointRecord ((applyDedup rd t).getCol "geometry") hdec2
  have hpoint2 : "point" ∉
      (Table.mk ((applyDedup rd t).cols.filter (fun c => c.1 ≠ "geometry"))).names := by
    intro hmem
    apply hpoint
    rw [show t.names = (applyDedup rd t).names from (names_applyDedup rd t).symm]
    simp only [Table.names, List.mem_map] at hmem ⊢
    obtain ⟨ c, hc, hc1 ⟩ := hmem
    exact ⟨ c, (List.mem_filter.mp hc).1, hc1 ⟩
  have hcont : (Table.mk ((applyDedup rd t).cols.filter
      (fun c => c.1 ≠ "geometry"))).names.contains "point" = false := by
    simpa using hpoint2
  have hidx2 : "index" ∉
      (Table.mk ((applyDedup rd t).cols.filter (fun c => c.1 ≠ "geometry") ++
        [ ("point", pts) ])).names := by
    intro hmem
    simp only [Table.names, List.map_append, List.mem_append, List.mem_map] at hmem
    rcases hmem with ⟨ c, hc, hc1 ⟩ | hmem
    · apply hidx
      rw [show t.names = (applyDedup rd t).names from (names_applyDedup rd t).symm]
      exact List.mem_map.mpr ⟨ c, (List.mem_filter.mp hc).1, hc1 ⟩
    · simp at hmem
  have hsetcol : (Table.mk ((applyDedup rd t).cols.filter
        (fun c => c.1 ≠ "geometry"))).setCol "point" pts =
      Table.mk ((applyDedup rd t).cols.filter (fun c => c.1 ≠ "geometry") ++
        [ ("point", pts) ]) := by
    unfold Table.setCol
    rw [hcont]
    rfl
  have htrans : transformGeometry (applyDedup rd t) =
      .ok ⟨ (applyDedup rd t).cols.filter (fun c => c.1 ≠ "geometry") ++
        [ ("point", pts) ] ⟩ := by
    unfold transformGeometry
    rw [if_pos hg2]
    simp only [hmapm]
    rw [hsetcol]
    unfold resetIndexDrop
    rw [if_neg hidx2]
  refine ⟨ pts, ?_, List.Forall₂.imp decodePointRecord_spec hfa, ?_,
    hWF2.1, names_applyDedup rd t, applyDedup_eq_of_falsy rd t,
    nrows_applyDedup_le rd t, ?_ ⟩
  · simp only [get_spectra_geoparquet, hp, afterLoad, htrans, Except.map_ok]
    rfl
  · rw [← List.Forall₂.length_eq hfa, getCol_length _ hWF2 _ hg2]
  · intro hmem
    rw [List.map_append, List.mem_append] at hmem
    rcases hmem with hmem | hmem
    · simp only [List.mem_map] at hmem
      obtain ⟨ c, hc, hc1 ⟩ := hmem
      have := (List.mem_filter.mp hc).2
      rw [hc1] at this
      simp at this
    · simp at hmem

/-- Witness for C1 at the one-row sample table: the geometry column is
replaced by the appended point column of decoded coordinate records. -/
theorem c1_geometry_point_transform_witness :
    ∃ pts,
      get_spectra_geoparquet (fun _ _ _ => .ok sampleGeomTable) "GEWPS" "EFTH"
          "2025031500" none none none none =
        .ok ((applyDedup none sampleGeomTable).cols.filter
          (fun c => c.1 ≠ "geometry") ++ [ ("point", pts) ])
      ∧ List.Forall₂ (fun v w => ∃ b q, v = Value.bytes b ∧
          from_wkb b = some q ∧ w = Value.pydict [ ("y", q.y), ("x", q.x) ])
          ((applyDedup none sampleGeomTable).getCol "geometry") pts
      ∧ pts.length = (applyDedup none sampleGeomTable).nrows
      ∧ (∀ c ∈ (applyDedup none sampleGeomTable).cols,
          c.2.length = (applyDedup none sampleGeomTable).nrows)
      ∧ (applyDedup none sampleGeomTable).names = sampleGeomTable.names
      ∧ ((none : Option Bool).getD false = false →
          applyDedup none sampleGeomTable = sampleGeomTable)
      ∧ (applyDedup none sampleGeomTable).nrows ≤ sampleGeomTable.nrows
      ∧ "geometry" ∉ ((applyDedup none sampleGeomTable).cols.filter
          (fun c => c.1 ≠ "geometry") ++ [ ("point", pts) ]).map Prod.fst :=
  c1_geometry_point_transform sampleGeomTable "GEWPS" "EFTH" "2025031500"
    none none none none (Or.inl (by decide)) ⟨ by decide, by decide ⟩
    (by decide) (by decide) (by decide)
    (by
      intro v hv
      have he : sampleGeomTable.getCol "geometry" = [ Value.bytes wkbZeroPoint ] := by
        decide
      rw [he, List.mem_singleton] at hv
      subst hv
      exact ⟨ wkbZeroPoint, ⟨ 0, 0 ⟩, rfl, by decide ⟩)

/-- C1 counterexample, at two concrete inputs, one per column-name clash
the claim as stated overlooks.  First: on a loaded table that already has
a column named "point" (cell value "a") alongside the geometry column,
the point assignment replaces that existing column in place instead of
appending a new one, so the non-geometry column "point" does not keep its
values although no deduplication was requested.  Second: on a loaded
table that already has a column named "index" (cell value "a"), the
reset-index step materializes the old index under the fallback name
"level_0" and the subsequent drop of "index" deletes the user's data
column, so the output gains a spurious "level_0" column and the
non-geometry column "index" does not keep its values either. -/
theorem c1_counterexample :
    (get_spectra_geoparquet (fun _ _ _ => .ok samplePointClashTable) "GEWPS"
        "EFTH" "2025031500" none none none none =
      .ok [ ("point", [ Value.pydict [ ("y", 0), ("x", 0) ] ]) ]
    ∧ ("point", [ Value.str "a" ]) ∉
        ([ ("point", [ Value.pydict [ ("y", 0), ("x", 0) ] ]) ] : Output))
    ∧ (get_spectra_geoparquet (fun _ _ _ => .ok sampleIndexClashTable) "GEWPS"
        "EFTH" "2025031500" none none none none =
      .ok [ ("level_0", [ Value.int 0 ]),
        ("point", [ Value.pydict [ ("y", 0), ("x", 0) ] ]) ]
    ∧ ("index", [ Value.str "a" ]) ∉
        ([ ("level_0", [ Value.int 0 ]),
          ("point", [ Value.pydict [ ("y", 0), ("x", 0) ] ]) ] : Output)) := by
  exact ⟨ ⟨ rfl, by decide ⟩, ⟨ rfl, by decide ⟩ ⟩

end GetSpectra
